import Mathlib

/-!
Shallow embedding of the focusChrono application core: the `FocusTimer`
session controller (src/focus/scripts/timer.js) and the `SettingsManager`
preference store.  JavaScript numbers are modelled as rationals (`ℚ`),
JavaScript strings as `String`, `null` as `none`.  The browser's interval
registry is modelled explicitly: `setInterval` returns a fresh positive
handle which is recorded in the `active` list, `clearInterval` removes it.
The callbacks an operation would deliver (`onTick`, `onModeChange`,
`onComplete`) and `console.error` reports are returned as an event list,
in emission order.
-/

/-- Constant `TimerState.STOPPED` of timer.js. -/
def STOPPED : String := "stopped"

/-- Constant `TimerState.RUNNING` of timer.js. -/
def RUNNING : String := "running"

/-- Constant `TimerState.PAUSED` of timer.js. -/
def PAUSED : String := "paused"

/-- Constant `DEFAULT_FOCUS_TIME = 25 * 60` of timer.js (seconds). -/
def DEFAULT_FOCUS_TIME : ℚ := 25 * 60

/-- Constant `DEFAULT_BREAK_TIME = 5 * 60` of timer.js (seconds). -/
def DEFAULT_BREAK_TIME : ℚ := 5 * 60

/-- Notifications emitted by the timer: `onTick(timeLeft, totalTime, mode)`,
`onModeChange(newMode, oldMode)`, `onComplete(mode)`, and the
`console.error('Mode invalide:', newMode)` report of `setMode`. -/
inductive TimerEvent where
  | tick (timeLeft totalTime : ℚ) (mode : String)
  | modeChange (newMode oldMode : String)
  | complete (mode : String)
  | error (invalidMode : String)
deriving DecidableEq

/-- State of a `FocusTimer` instance (timer.js).  Fields `state`, `mode`,
`timeLeft`, `totalTime`, `focusDuration`, `breakDuration`, `intervalId` are
the object's own properties; `nextId` and `active` model the browser's
interval registry (`setInterval` hands out `nextId`, which is always ≥ 1,
and appends it to `active`; `clearInterval` removes a handle from
`active`). -/
structure FocusTimer where
  state : String
  mode : String
  timeLeft : ℚ
  totalTime : ℚ
  focusDuration : ℚ
  breakDuration : ℚ
  intervalId : Option ℕ
  nextId : ℕ
  active : List ℕ
deriving DecidableEq

/-- The state built by the `FocusTimer` constructor. -/
def FocusTimer.init : FocusTimer :=
  { state := STOPPED
    mode := "focus"
    timeLeft := DEFAULT_FOCUS_TIME
    totalTime := DEFAULT_FOCUS_TIME
    focusDuration := DEFAULT_FOCUS_TIME
    breakDuration := DEFAULT_BREAK_TIME
    intervalId := none
    nextId := 1
    active := [] }

/-- Model of the host's `setInterval`: allocates a fresh handle, registers
it as live, and returns it. -/
def FocusTimer.setIntervalJs (t : FocusTimer) : FocusTimer × ℕ :=
  ({ t with nextId := t.nextId + 1, active := t.active ++ [t.nextId] }, t.nextId)

/-- Model of the host's `clearInterval(h)`: removes the handle from the live
registry; a `null` argument is a no-op, as in the browser. -/
def FocusTimer.clearIntervalJs (t : FocusTimer) (h : Option ℕ) : FocusTimer :=
  { t with active :=
      match h with
      | none => t.active
      | some i => t.active.filter (fun j => j != i) }

/-- Private method `_resetTime` of timer.js: reload `timeLeft` and
`totalTime` from the configured duration of the current mode (any mode
other than `'focus'` takes the `else` branch, that is the break
duration). -/
def FocusTimer.resetTime (t : FocusTimer) : FocusTimer :=
  if t.mode = "focus" then
    { t with timeLeft := t.focusDuration, totalTime := t.focusDuration }
  else
    { t with timeLeft := t.breakDuration, totalTime := t.breakDuration }

/-- Private method `_complete` of timer.js: clear the interval, null the
handle, set state `stopped`, and call `onComplete(this.mode)`. -/
def FocusTimer.complete (t : FocusTimer) : FocusTimer × List TimerEvent :=
  let t1 := t.clearIntervalJs t.intervalId
  let t2 := { t1 with intervalId := none, state := STOPPED }
  (t2, [TimerEvent.complete t2.mode])

/-- Private method `_tick` of timer.js: decrement `timeLeft`, call
`onTick(timeLeft, totalTime, mode)`, then, when `timeLeft <= 0`, run
`_complete`. -/
def FocusTimer.tick (t : FocusTimer) : FocusTimer × List TimerEvent :=
  let t1 := { t with timeLeft := t.timeLeft - 1 }
  let evs := [TimerEvent.tick t1.timeLeft t1.totalTime t1.mode]
  if t1.timeLeft ≤ 0 then
    let r := t1.complete
    (r.1, evs ++ r.2)
  else
    (t1, evs)

/-- Method `start()` of timer.js: warn-and-return when already `running`;
otherwise set state `running`, create the interval, and run the immediate
first `_tick()`. -/
def FocusTimer.start (t : FocusTimer) : FocusTimer × List TimerEvent :=
  if t.state = RUNNING then
    (t, [])
  else
    let t1 := { t with state := RUNNING }
    let alloc := t1.setIntervalJs
    let t2 := { alloc.1 with intervalId := some alloc.2 }
    t2.tick

/-- Method `pause()` of timer.js: warn-and-return when not `running`;
otherwise set state `paused`, clear the interval and null the handle. -/
def FocusTimer.pause (t : FocusTimer) : FocusTimer × List TimerEvent :=
  if t.state ≠ RUNNING then
    (t, [])
  else
    let t1 := { t with state := PAUSED }
    let t2 := t1.clearIntervalJs t1.intervalId
    ({ t2 with intervalId := none }, [])

/-- Method `resume()` of timer.js: warn-and-return when not `paused`;
otherwise delegate to `start()`. -/
def FocusTimer.resume (t : FocusTimer) : FocusTimer × List TimerEvent :=
  if t.state ≠ PAUSED then
    (t, [])
  else
    t.start

/-- Method `reset(mode = null)` of timer.js: clear the interval when the
handle is truthy, set state `stopped`, adopt the given mode when truthy
(a present, non-empty string), reload the time via `_resetTime`, and call
`onTick` with the refreshed values. -/
def FocusTimer.reset (t : FocusTimer) (mode : Option String) : FocusTimer × List TimerEvent :=
  let t1 := { (t.clearIntervalJs t.intervalId) with intervalId := none }
  let t2 := { t1 with state := STOPPED }
  let t3 :=
    match mode with
    | some m => if m = "" then t2 else { t2 with mode := m }
    | none => t2
  let t4 := t3.resetTime
  (t4, [TimerEvent.tick t4.timeLeft t4.totalTime t4.mode])

/-- Method `setMode(newMode)` of timer.js: values other than `'focus'` and
`'break'` are rejected with a `console.error` and no state change;
otherwise the timer is paused when `running`, the mode is switched, the
time is reloaded via `_resetTime`, and `onModeChange(newMode, oldMode)`
then `onTick` are called. -/
def FocusTimer.setMode (t : FocusTimer) (newMode : String) : FocusTimer × List TimerEvent :=
  if newMode ≠ "focus" ∧ newMode ≠ "break" then
    (t, [TimerEvent.error newMode])
  else
    let t1 := if t.state = RUNNING then (t.pause).1 else t
    let oldMode := t1.mode
    let t2 := FocusTimer.resetTime { t1 with mode := newMode }
    (t2, [TimerEvent.modeChange newMode oldMode,
          TimerEvent.tick t2.timeLeft t2.totalTime t2.mode])

/-- Method `setFocusDuration(minutes)` of timer.js: store
`seconds = minutes * 60` as the focus duration unconditionally; when the
mode is `'focus'` and the state is `stopped`, also set
`timeLeft = totalTime = seconds` and call `onTick`. -/
def FocusTimer.setFocusDuration (t : FocusTimer) (minutes : ℚ) :
    FocusTimer × List TimerEvent :=
  let seconds := minutes * 60
  let t1 := { t with focusDuration := seconds }
  if t1.mode = "focus" ∧ t1.state = STOPPED then
    let t2 := { t1 with timeLeft := seconds, totalTime := seconds }
    (t2, [TimerEvent.tick t2.timeLeft t2.totalTime t2.mode])
  else
    (t1, [])

/-- Method `setBreakDuration(minutes)` of timer.js: store
`seconds = minutes * 60` as the break duration unconditionally; when the
mode is `'break'` and the state is `stopped`, also set
`timeLeft = totalTime = seconds` and call `onTick`. -/
def FocusTimer.setBreakDuration (t : FocusTimer) (minutes : ℚ) :
    FocusTimer × List TimerEvent :=
  let seconds := minutes * 60
  let t1 := { t with breakDuration := seconds }
  if t1.mode = "break" ∧ t1.state = STOPPED then
    let t2 := { t1 with timeLeft := seconds, totalTime := seconds }
    (t2, [TimerEvent.tick t2.timeLeft t2.totalTime t2.mode])
  else
    (t1, [])

/-!
Preference store: the `SettingsManager` class.  `localStorage` is modelled
as one optional slot per storage key (`getItem` returns the stored string
or `null`); the `focusStats` slot holds either text that `JSON.parse`
reads back as a stats object or malformed text on which it throws.
-/

/-- Result of JavaScript `parseInt`: an integer, or NaN. -/
inductive JsNum where
  | nan
  | num (q : ℚ)
deriving DecidableEq

/-- The stats record kept under the `focusStats` key:
`{ sessionsToday, totalFocusTime, lastResetDate }`; `lastResetDate` starts
out `null`. -/
structure Stats where
  sessionsToday : ℚ
  totalFocusTime : ℚ
  lastResetDate : Option String
deriving DecidableEq

/-- Stored text under the `focusStats` key, as seen through `JSON.parse`:
either it parses back to a stats record, or `JSON.parse` throws on it. -/
inductive StatsJson where
  | ok (s : Stats)
  | malformed
deriving DecidableEq

/-- The five `localStorage` slots the manager uses (`STORAGE_KEYS`), each
holding a string or `null`. -/
structure LocalStorage where
  focusDuration : Option String
  breakDuration : Option String
  soundEnabled : Option String
  theme : Option String
  focusStats : Option StatsJson
deriving DecidableEq

/-- A store with no persisted keys. -/
def LocalStorage.empty : LocalStorage :=
  { focusDuration := none, breakDuration := none, soundEnabled := none
    theme := none, focusStats := none }

/-- In-memory settings of a `SettingsManager`.  Durations are `JsNum`
because a load passes stored strings through `parseInt`, which can yield
NaN. -/
structure Settings where
  focusDuration : JsNum
  breakDuration : JsNum
  soundEnabled : Bool
  theme : String
  stats : Stats
deriving DecidableEq

/-- The `this.defaults` object of the `SettingsManager` constructor:
focus 25 minutes, break 5 minutes, sound on, dark theme, zero counters,
no reset date. -/
def SettingsManager.defaults : Settings :=
  { focusDuration := JsNum.num 25
    breakDuration := JsNum.num 5
    soundEnabled := true
    theme := "dark"
    stats := { sessionsToday := 0, totalFocusTime := 0, lastResetDate := none } }

/-- Value of a digit sequence read as a base-10 numeral. -/
def digitsVal (ds : List Char) : ℕ :=
  ds.foldl (fun a c => 10 * a + (c.toNat - 48)) 0

/-- Model of JavaScript `parseInt` on the strings this application deals
with: an optional sign followed by the longest leading digit run; NaN when
no digit leads (radix prefixes and leading whitespace, which the
application never stores, are not modelled). -/
def jsParseInt (s : String) : JsNum :=
  let signed : ℤ × List Char :=
    match s.toList with
    | '-' :: r => (-1, r)
    | '+' :: r => (1, r)
    | r => (1, r)
  let ds := signed.2.takeWhile Char.isDigit
  if ds = [] then JsNum.nan
  else JsNum.num ((signed.1 * digitsVal ds : ℤ) : ℚ)

/-- The number-to-string coercion `localStorage.setItem` applies to the
duration values; it agrees with JavaScript on the integers and NaN, the
only values the manager ever stores. -/
def jsNumToString (j : JsNum) : String :=
  match j with
  | JsNum.nan => "NaN"
  | JsNum.num q => if q.den = 1 then toString q.num else toString q

/-- JavaScript comparison `a < b` on numbers: any comparison involving
NaN is false. -/
def JsNum.ltb (a b : JsNum) : Bool :=
  match a, b with
  | JsNum.num x, JsNum.num y => decide (x < y)
  | _, _ => false

/-- Private method `_saveSettings`: write every settings field to its
storage slot (numbers and booleans are coerced to strings, the stats
record is serialized with `JSON.stringify`, which `JSON.parse` reads
back). -/
def SettingsManager.saveSettings (s : Settings) (st : LocalStorage) : LocalStorage :=
  { focusDuration := some (jsNumToString s.focusDuration)
    breakDuration := some (jsNumToString s.breakDuration)
    soundEnabled := some (if s.soundEnabled then "true" else "false")
    theme := some s.theme
    focusStats := some (StatsJson.ok s.stats) }

/-- Private method `_loadSettings`: starting from the current settings
(the defaults, at construction), overwrite each field whose storage slot
is non-null — durations through `parseInt`, the sound flag by comparison
with the string `'true'`, the theme verbatim, the stats through
`JSON.parse`.  When `JSON.parse` throws, the `catch` block replaces the
whole settings object with the defaults. -/
def SettingsManager.loadSettings (cur : Settings) (st : LocalStorage) : Settings :=
  let s1 := { cur with focusDuration :=
      match st.focusDuration with
      | some v => jsParseInt v
      | none => cur.focusDuration }
  let s2 := { s1 with breakDuration :=
      match st.breakDuration with
      | some v => jsParseInt v
      | none => s1.breakDuration }
  let s3 := { s2 with soundEnabled :=
      match st.soundEnabled with
      | some v => v == "true"
      | none => s2.soundEnabled }
  let s4 := { s3 with theme :=
      match st.theme with
      | some v => v
      | none => s3.theme }
  match st.focusStats with
  | some (StatsJson.ok j) => { s4 with stats := j }
  | some StatsJson.malformed => SettingsManager.defaults
  | none => s4

/-- Private method `_checkStatsReset`: when the stored `lastResetDate`
differs from today, zero both counters, stamp today, and persist. -/
def SettingsManager.checkStatsReset (today : String) (s : Settings) (st : LocalStorage) :
    Settings × LocalStorage :=
  if s.stats.lastResetDate ≠ some today then
    let s1 := { s with stats :=
      { sessionsToday := 0, totalFocusTime := 0, lastResetDate := some today } }
    (s1, SettingsManager.saveSettings s1 st)
  else
    (s, st)

/-- Private method `_init`, run by the constructor: `_loadSettings` from
storage on top of the defaults, then `_checkStatsReset`. -/
def SettingsManager.init (today : String) (st : LocalStorage) :
    Settings × LocalStorage :=
  SettingsManager.checkStatsReset today
    (SettingsManager.loadSettings SettingsManager.defaults st) st

/-- A value carried by an `onSettingsChange` notification. -/
inductive JsValue where
  | num (j : JsNum)
  | str (s : String)
  | bool (b : Bool)
deriving DecidableEq

/-- Notification `onSettingsChange(key, newValue, oldValue)`. -/
inductive SettingsEvent where
  | change (key : String) (newValue oldValue : JsValue)
deriving DecidableEq

/-- Method `setFocusDuration(minutes)` of the manager: when
`minutes < 1 || minutes > 120` (under JavaScript comparison, where NaN
compares false) reject with `false` and no change; otherwise update,
persist, notify `(key, newValue, oldValue)`, and return `true`. -/
def SettingsManager.setFocusDuration (s : Settings) (st : LocalStorage) (minutes : JsNum) :
    (Settings × LocalStorage) × Bool × List SettingsEvent :=
  if JsNum.ltb minutes (JsNum.num 1) || JsNum.ltb (JsNum.num 120) minutes then
    ((s, st), false, [])
  else
    let oldValue := s.focusDuration
    let s1 := { s with focusDuration := minutes }
    ((s1, SettingsManager.saveSettings s1 st), true,
      [SettingsEvent.change "focusDuration"
        (JsValue.num minutes) (JsValue.num oldValue)])

/-- Method `setBreakDuration(minutes)` of the manager: as
`setFocusDuration`, with the range [1,30]. -/
def SettingsManager.setBreakDuration (s : Settings) (st : LocalStorage) (minutes : JsNum) :
    (Settings × LocalStorage) × Bool × List SettingsEvent :=
  if JsNum.ltb minutes (JsNum.num 1) || JsNum.ltb (JsNum.num 30) minutes then
    ((s, st), false, [])
  else
    let oldValue := s.breakDuration
    let s1 := { s with breakDuration := minutes }
    ((s1, SettingsManager.saveSettings s1 st), true,
      [SettingsEvent.change "breakDuration"
        (JsValue.num minutes) (JsValue.num oldValue)])

/-- Method `setSoundEnabled(enabled)`: unconditional update, persist,
notify, return `true`. -/
def SettingsManager.setSoundEnabled (s : Settings) (st : LocalStorage) (enabled : Bool) :
    (Settings × LocalStorage) × Bool × List SettingsEvent :=
  let oldValue := s.soundEnabled
  let s1 := { s with soundEnabled := enabled }
  ((s1, SettingsManager.saveSettings s1 st), true,
    [SettingsEvent.change "soundEnabled" (JsValue.bool enabled) (JsValue.bool oldValue)])

/-- Method `setTheme(theme)`: reject values outside dark/light with
`false` and no change; otherwise update, persist, notify, return
`true`. -/
def SettingsManager.setTheme (s : Settings) (st : LocalStorage) (theme : String) :
    (Settings × LocalStorage) × Bool × List SettingsEvent :=
  if theme ≠ "dark" ∧ theme ≠ "light" then
    ((s, st), false, [])
  else
    let oldValue := s.theme
    let s1 := { s with theme := theme }
    ((s1, SettingsManager.saveSettings s1 st), true,
      [SettingsEvent.change "theme" (JsValue.str theme) (JsValue.str oldValue)])

/-- Method `incrementSessions()`: bump `sessionsToday` and persist. -/
def SettingsManager.incrementSessions (s : Settings) (st : LocalStorage) :
    Settings × LocalStorage :=
  let s1 := { s with stats := { s.stats with sessionsToday := s.stats.sessionsToday + 1 } }
  (s1, SettingsManager.saveSettings s1 st)

/-- Method `addFocusTime(minutes)`: add to `totalFocusTime` and persist. -/
def SettingsManager.addFocusTime (s : Settings) (st : LocalStorage) (minutes : ℚ) :
    Settings × LocalStorage :=
  let s1 := { s with stats := { s.stats with totalFocusTime := s.stats.totalFocusTime + minutes } }
  (s1, SettingsManager.saveSettings s1 st)

/-!
Concrete fixtures used by witnesses and counterexamples.
-/

/-- A stopped focus session configured with one second remaining (the
spec's 1-second-session scenario). -/
def oneSecondTimer : FocusTimer :=
  { state := STOPPED
    mode := "focus"
    timeLeft := 1
    totalTime := 1
    focusDuration := 1
    breakDuration := DEFAULT_BREAK_TIME
    intervalId := none
    nextId := 1
    active := [] }

/-- A running focus session with one second remaining and one live
interval handle. -/
def tickingOneSecond : FocusTimer :=
  { state := RUNNING
    mode := "focus"
    timeLeft := 1
    totalTime := 60
    focusDuration := 60
    breakDuration := DEFAULT_BREAK_TIME
    intervalId := some 1
    nextId := 2
    active := [1] }

/-- The other of the two valid modes. -/
def otherMode (m : String) : String :=
  if m = "focus" then "break" else "focus"

/-- C1: a `running` timer, in either valid mode, on `setMode` with the
other valid mode is first paused, has its mode switched and
`timeLeft = totalTime` reset to the configured duration of the new mode,
emits a mode-change notification followed by a tick notification, and ends
with status `paused`, not `stopped`; and `setMode` with any argument
outside focus/break reports an error and leaves the entire timer state
unchanged. -/
theorem c1_setMode_running_pauses :
    (∀ t : FocusTimer, t.state = RUNNING →
      t.mode = "focus" ∨ t.mode = "break" →
      (t.setMode (otherMode t.mode)).1.state = PAUSED ∧
      (t.setMode (otherMode t.mode)).1.state ≠ STOPPED ∧
      (t.setMode (otherMode t.mode)).1.mode = otherMode t.mode ∧
      (t.setMode (otherMode t.mode)).1.timeLeft =
        (if otherMode t.mode = "focus" then t.focusDuration else t.breakDuration) ∧
      (t.setMode (otherMode t.mode)).1.totalTime =
        (if otherMode t.mode = "focus" then t.focusDuration else t.breakDuration) ∧
      (t.setMode (otherMode t.mode)).2 =
        [TimerEvent.modeChange (otherMode t.mode) t.mode,
         TimerEvent.tick
           (if otherMode t.mode = "focus" then t.focusDuration else t.breakDuration)
           (if otherMode t.mode = "focus" then t.focusDuration else t.breakDuration)
           (otherMode t.mode)]) ∧
    (∀ (t : FocusTimer) (m : String), m ≠ "focus" → m ≠ "break" →
      t.setMode m = (t, [TimerEvent.error m])) := by
  constructor
  · intro t hrun hmode
    rcases hmode with hm | hm <;>
      simp [otherMode, FocusTimer.setMode, FocusTimer.pause, FocusTimer.clearIntervalJs,
        FocusTimer.resetTime, hrun, hm, RUNNING, PAUSED, STOPPED]
  · intro t m h1 h2
    simp [FocusTimer.setMode, h1, h2]

/-- Witness for C1 at concrete inputs: switching a freshly started
(running, focus-mode) timer to break ends paused, and an invalid mode
string changes nothing. -/
theorem c1_witness :
    ((FocusTimer.init.start).1.setMode "break").1.state = PAUSED ∧
    FocusTimer.init.setMode "sideways" =
      (FocusTimer.init, [TimerEvent.error "sideways"]) := by
  have hrun : (FocusTimer.init.start).1.state = RUNNING := by
    norm_num [FocusTimer.init, FocusTimer.start, FocusTimer.tick,
      FocusTimer.setIntervalJs, FocusTimer.complete, FocusTimer.clearIntervalJs,
      STOPPED, RUNNING, DEFAULT_FOCUS_TIME, DEFAULT_BREAK_TIME] <;> simp
  have hmode : (FocusTimer.init.start).1.mode = "focus" := by
    norm_num [FocusTimer.init, FocusTimer.start, FocusTimer.tick,
      FocusTimer.setIntervalJs, FocusTimer.complete, FocusTimer.clearIntervalJs,
      STOPPED, RUNNING, DEFAULT_FOCUS_TIME, DEFAULT_BREAK_TIME] <;> simp
  constructor
  · have h := (c1_setMode_running_pauses.1 (FocusTimer.init.start).1 hrun (Or.inl hmode)).1
    rw [hmode] at h
    simpa [otherMode] using h
  · exact c1_setMode_running_pauses.2 FocusTimer.init "sideways" (by decide) (by decide)

/-- C2: a running timer with one second left, on its next tick, decrements
to 0, emits the tick notification `(0, totalTime, mode)` before the
completion check, then clears the interval handle, stops, and emits exactly
one completion notification with the mode active at tick-start; afterwards
no live handle remains, so no further tick or completion can fire. -/
theorem c2_completion_from_one (t : FocusTimer) (i : ℕ)
    (_hrun : t.state = RUNNING) (hone : t.timeLeft = 1)
    (hid : t.intervalId = some i) (hact : t.active = [i]) :
    (t.tick).1.timeLeft = 0 ∧
    (t.tick).2 = [TimerEvent.tick 0 t.totalTime t.mode, TimerEvent.complete t.mode] ∧
    (t.tick).1.state = STOPPED ∧
    (t.tick).1.intervalId = none ∧
    (t.tick).1.active = [] ∧
    (t.tick).1.mode = t.mode := by
  simp [FocusTimer.tick, FocusTimer.complete, FocusTimer.clearIntervalJs,
    hone, hid, hact, STOPPED]

/-- Witness for C2 at the concrete running one-second session. -/
theorem c2_witness :
    (tickingOneSecond.tick).1.timeLeft = 0 ∧
    (tickingOneSecond.tick).2 =
      [TimerEvent.tick 0 tickingOneSecond.totalTime tickingOneSecond.mode,
       TimerEvent.complete tickingOneSecond.mode] ∧
    (tickingOneSecond.tick).1.state = STOPPED ∧
    (tickingOneSecond.tick).1.intervalId = none ∧
    (tickingOneSecond.tick).1.active = [] ∧
    (tickingOneSecond.tick).1.mode = tickingOneSecond.mode :=
  c2_completion_from_one tickingOneSecond 1 rfl rfl rfl rfl

/-- C6 counterexample: starting the one-second session emits the tick AND
the completion notification synchronously, inside `start()` itself (both
at t = 0), and leaves the timer stopped with no live interval handle — so
no notification at all, in particular no completion, occurs at t = 1,
contrary to the claim's "one completion at t=1". -/
theorem c6_counterexample :
    (oneSecondTimer.start).2 =
      [TimerEvent.tick 0 1 "focus", TimerEvent.complete "focus"] ∧
    (oneSecondTimer.start).1.state = STOPPED ∧
    (oneSecondTimer.start).1.state ≠ RUNNING ∧
    (oneSecondTimer.start).1.active = [] := by
  norm_num [oneSecondTimer, FocusTimer.start, FocusTimer.tick,
    FocusTimer.setIntervalJs, FocusTimer.complete, FocusTimer.clearIntervalJs,
    STOPPED, RUNNING] <;> simp

/-- C6 as amended: from `stopped` or `paused`, `start()` performs its
first tick synchronously before returning — `timeLeft` is already
decremented and the tick notification already emitted when `start()`
returns — and a session started with one second remaining completes with
two notifications, a tick and then a completion, both emitted inside the
`start()` call itself. -/
theorem c6_immediate_first_tick (t : FocusTimer)
    (h : t.state = STOPPED ∨ t.state = PAUSED) :
    (t.start).1.timeLeft = t.timeLeft - 1 ∧
    (t.start).2.head? = some (TimerEvent.tick (t.timeLeft - 1) t.totalTime t.mode) ∧
    (t.timeLeft = 1 →
      (t.start).2 = [TimerEvent.tick 0 t.totalTime t.mode, TimerEvent.complete t.mode] ∧
      (t.start).1.state = STOPPED) := by
  have hne : t.state ≠ RUNNING := by
    rcases h with h | h <;> simp [h, STOPPED, PAUSED, RUNNING]
  refine ⟨?_, ?_, ?_⟩
  · by_cases hc : t.timeLeft - 1 ≤ 0 <;>
      simp [FocusTimer.start, FocusTimer.tick, FocusTimer.setIntervalJs,
        FocusTimer.complete, FocusTimer.clearIntervalJs, hne, hc]
  · by_cases hc : t.timeLeft - 1 ≤ 0 <;>
      simp [FocusTimer.start, FocusTimer.tick, FocusTimer.setIntervalJs,
        FocusTimer.complete, FocusTimer.clearIntervalJs, hne, hc]
  · intro h1
    simp [FocusTimer.start, FocusTimer.tick, FocusTimer.setIntervalJs,
      FocusTimer.complete, FocusTimer.clearIntervalJs, hne, h1, STOPPED]

/-- Witness for C6 (amended) at the concrete stopped one-second session. -/
theorem c6_witness :
    (oneSecondTimer.start).1.timeLeft = oneSecondTimer.timeLeft - 1 ∧
    (oneSecondTimer.start).2.head? =
      some (TimerEvent.tick (oneSecondTimer.timeLeft - 1) oneSecondTimer.totalTime
        oneSecondTimer.mode) ∧
    (oneSecondTimer.timeLeft = 1 →
      (oneSecondTimer.start).2 =
        [TimerEvent.tick 0 oneSecondTimer.totalTime oneSecondTimer.mode,
         TimerEvent.complete oneSecondTimer.mode] ∧
      (oneSecondTimer.start).1.state = STOPPED) :=
  c6_immediate_first_tick oneSecondTimer (Or.inl rfl)

/-- C7 counterexample: a freshly started timer is running with 1499
seconds left, yet after `pause()` then `resume()` it shows 1498 — the
pause/resume round-trip does not preserve `remainingSeconds`, because
`resume()` re-enters `start()` whose first tick fires immediately. -/
theorem c7_counterexample :
    (FocusTimer.init.start).1.state = RUNNING ∧
    (FocusTimer.init.start).1.timeLeft = 1499 ∧
    ((((FocusTimer.init.start).1.pause).1.resume).1).timeLeft = 1498 ∧
    ¬ ((((FocusTimer.init.start).1.pause).1.resume).1).timeLeft = 1499 := by
  norm_num [FocusTimer.init, FocusTimer.start, FocusTimer.pause, FocusTimer.resume,
    FocusTimer.tick, FocusTimer.setIntervalJs, FocusTimer.complete,
    FocusTimer.clearIntervalJs, STOPPED, RUNNING, PAUSED,
    DEFAULT_FOCUS_TIME, DEFAULT_BREAK_TIME] <;> simp <;> norm_num

/-- C7 as amended: `pause()` itself leaves `remainingSeconds` untouched
(the value observed while paused equals the value `n` at the moment of
pausing), but `resume()` re-enters `start()`, whose immediate first tick
decrements, so after the pause/resume round-trip the observed value is
`n - 1`. -/
theorem c7_pause_resume (t : FocusTimer) (h : t.state = RUNNING) :
    (t.pause).1.timeLeft = t.timeLeft ∧
    (t.pause).1.state = PAUSED ∧
    ((t.pause).1.resume).1.timeLeft = t.timeLeft - 1 := by
  refine ⟨?_, ?_, ?_⟩
  · simp [FocusTimer.pause, FocusTimer.clearIntervalJs, h, RUNNING]
  · simp [FocusTimer.pause, FocusTimer.clearIntervalJs, h, RUNNING]
  · by_cases hc : t.timeLeft - 1 ≤ 0 <;>
      simp [FocusTimer.pause, FocusTimer.resume, FocusTimer.start, FocusTimer.tick,
        FocusTimer.setIntervalJs, FocusTimer.complete, FocusTimer.clearIntervalJs,
        h, hc, RUNNING, PAUSED]

/-- Witness for C7 (amended) at the concrete running one-second session. -/
theorem c7_witness :
    (tickingOneSecond.pause).1.timeLeft = tickingOneSecond.timeLeft ∧
    (tickingOneSecond.pause).1.state = PAUSED ∧
    ((tickingOneSecond.pause).1.resume).1.timeLeft = tickingOneSecond.timeLeft - 1 :=
  c7_pause_resume tickingOneSecond rfl

/-- C10: the timer's own duration setters validate nothing: for every
rational `minutes` — zero, negative and non-integer included —
`setFocusDuration` stores `minutes * 60` unconditionally, and when the
timer is stopped in focus mode it also sets
`timeLeft = totalTime = minutes * 60` and emits a tick notification
(otherwise it touches neither `timeLeft` nor `totalTime` and emits
nothing); the analogous behaviour holds for `setBreakDuration` in break
mode; consequently a caller bypassing the preference store can reach
`totalTime ≤ 0`, as `setFocusDuration 0` on the initial timer shows. -/
theorem c10_no_validation_in_timer :
    (∀ (t : FocusTimer) (minutes : ℚ),
      (t.setFocusDuration minutes).1.focusDuration = minutes * 60 ∧
      (t.mode = "focus" → t.state = STOPPED →
        (t.setFocusDuration minutes).1.timeLeft = minutes * 60 ∧
        (t.setFocusDuration minutes).1.totalTime = minutes * 60 ∧
        (t.setFocusDuration minutes).2 =
          [TimerEvent.tick (minutes * 60) (minutes * 60) t.mode]) ∧
      (¬ (t.mode = "focus" ∧ t.state = STOPPED) →
        (t.setFocusDuration minutes).1.timeLeft = t.timeLeft ∧
        (t.setFocusDuration minutes).1.totalTime = t.totalTime ∧
        (t.setFocusDuration minutes).2 = [])) ∧
    (∀ (t : FocusTimer) (minutes : ℚ),
      (t.setBreakDuration minutes).1.breakDuration = minutes * 60 ∧
      (t.mode = "break" → t.state = STOPPED →
        (t.setBreakDuration minutes).1.timeLeft = minutes * 60 ∧
        (t.setBreakDuration minutes).1.totalTime = minutes * 60 ∧
        (t.setBreakDuration minutes).2 =
          [TimerEvent.tick (minutes * 60) (minutes * 60) t.mode]) ∧
      (¬ (t.mode = "break" ∧ t.state = STOPPED) →
        (t.setBreakDuration minutes).1.timeLeft = t.timeLeft ∧
        (t.setBreakDuration minutes).1.totalTime = t.totalTime ∧
        (t.setBreakDuration minutes).2 = [])) ∧
    (FocusTimer.init.setFocusDuration 0).1.totalTime ≤ 0 := by
  refine ⟨?_, ?_, ?_⟩
  · intro t minutes
    refine ⟨?_, ?_, ?_⟩
    · by_cases hc : t.mode = "focus" ∧ t.state = STOPPED <;>
        simp [FocusTimer.setFocusDuration, hc]
    · intro h1 h2
      simp [FocusTimer.setFocusDuration, h1, h2]
    · intro hc
      simp [FocusTimer.setFocusDuration, hc]
  · intro t minutes
    refine ⟨?_, ?_, ?_⟩
    · by_cases hc : t.mode = "break" ∧ t.state = STOPPED <;>
        simp [FocusTimer.setBreakDuration, hc]
    · intro h1 h2
      simp [FocusTimer.setBreakDuration, h1, h2]
    · intro hc
      simp [FocusTimer.setBreakDuration, hc]
  · norm_num [FocusTimer.init, FocusTimer.setFocusDuration, STOPPED] <;> simp

/-- Witness for C10 at a non-integer input: setting the focus duration of
the initial (stopped, focus-mode) timer to 5/2 minutes yields 150
seconds everywhere, with a tick notification. -/
theorem c10_witness :
    (FocusTimer.init.setFocusDuration (5 / 2)).1.focusDuration = 150 ∧
    (FocusTimer.init.setFocusDuration (5 / 2)).1.timeLeft = 150 ∧
    (FocusTimer.init.setFocusDuration (5 / 2)).1.totalTime = 150 := by
  have h := c10_no_validation_in_timer.1 FocusTimer.init (5 / 2)
  have hm : FocusTimer.init.mode = "focus" := rfl
  have hs : FocusTimer.init.state = STOPPED := rfl
  have h2 := h.2.1 hm hs
  refine ⟨?_, ?_, ?_⟩
  · rw [h.1]; norm_num
  · rw [h2.1]; norm_num
  · rw [h2.2.1]; norm_num

/-- C5 counterexample: NaN is a value of `minutes` outside [1,120] — it
is no number at all, and the code's own comparisons place it neither
below 1 nor above 120 — yet `setFocusDuration(NaN)` does not fail: it
returns the success indicator `true`, stores NaN as the in-memory focus
duration, persists it (the stored slot becomes the string "NaN"), and
emits a change notification.  NaN reaches this setter in the application
whenever the duration input field does not parse as an integer. -/
theorem c5_counterexample :
    JsNum.ltb JsNum.nan (JsNum.num 1) = false ∧
    JsNum.ltb (JsNum.num 120) JsNum.nan = false ∧
    (∀ q : ℚ, JsNum.nan ≠ JsNum.num q) ∧
    (SettingsManager.setFocusDuration SettingsManager.defaults LocalStorage.empty
        JsNum.nan).2.1 = true ∧
    ((SettingsManager.setFocusDuration SettingsManager.defaults LocalStorage.empty
        JsNum.nan).1.1).focusDuration = JsNum.nan ∧
    ((SettingsManager.setFocusDuration SettingsManager.defaults LocalStorage.empty
        JsNum.nan).1.2).focusDuration = some "NaN" := by
  refine ⟨rfl, rfl, fun q => by simp, ?_, ?_, ?_⟩ <;>
    simp [SettingsManager.setFocusDuration, SettingsManager.saveSettings,
      JsNum.ltb, jsNumToString]

/-- C5 as amended: for every numeric `minutes` outside [1,120]
(respectively [1,30]) the duration setter rejects with the failure
indicator `false` and leaves the settings, the persisted store, and the
notification stream unchanged; for every numeric `minutes` inside the
range it returns `true`, updates the in-memory value, persists the whole
settings object, and emits exactly one change notification
`(key, newValue, oldValue)`.  The one non-numeric value NaN, which the
code's comparisons place in neither rejection branch, is accepted like an
in-range value. -/
theorem c5_store_duration_setters :
    (∀ (s : Settings) (st : LocalStorage) (q : ℚ), q < 1 ∨ 120 < q →
      SettingsManager.setFocusDuration s st (JsNum.num q) = ((s, st), false, [])) ∧
    (∀ (s : Settings) (st : LocalStorage) (q : ℚ), 1 ≤ q → q ≤ 120 →
      SettingsManager.setFocusDuration s st (JsNum.num q) =
        (({ s with focusDuration := JsNum.num q },
           SettingsManager.saveSettings { s with focusDuration := JsNum.num q } st),
         true,
         [SettingsEvent.change "focusDuration"
           (JsValue.num (JsNum.num q)) (JsValue.num s.focusDuration)])) ∧
    (∀ (s : Settings) (st : LocalStorage) (q : ℚ), q < 1 ∨ 30 < q →
      SettingsManager.setBreakDuration s st (JsNum.num q) = ((s, st), false, [])) ∧
    (∀ (s : Settings) (st : LocalStorage) (q : ℚ), 1 ≤ q → q ≤ 30 →
      SettingsManager.setBreakDuration s st (JsNum.num q) =
        (({ s with breakDuration := JsNum.num q },
           SettingsManager.saveSettings { s with breakDuration := JsNum.num q } st),
         true,
         [SettingsEvent.change "breakDuration"
           (JsValue.num (JsNum.num q)) (JsValue.num s.breakDuration)])) ∧
    (∀ (s : Settings) (st : LocalStorage),
      SettingsManager.setFocusDuration s st JsNum.nan =
        (({ s with focusDuration := JsNum.nan },
           SettingsManager.saveSettings { s with focusDuration := JsNum.nan } st),
         true,
         [SettingsEvent.change "focusDuration"
           (JsValue.num JsNum.nan) (JsValue.num s.focusDuration)])) := by
  refine ⟨?_, ?_, ?_, ?_, ?_⟩
  · intro s st q h
    rcases h with h | h <;> simp [SettingsManager.setFocusDuration, JsNum.ltb, h]
  · intro s st q h1 h2
    have hA : ¬ q < 1 := not_lt.mpr h1
    have hB : ¬ 120 < q := not_lt.mpr h2
    simp [SettingsManager.setFocusDuration, JsNum.ltb, hA, hB]
  · intro s st q h
    rcases h with h | h <;> simp [SettingsManager.setBreakDuration, JsNum.ltb, h]
  · intro s st q h1 h2
    have hA : ¬ q < 1 := not_lt.mpr h1
    have hB : ¬ 30 < q := not_lt.mpr h2
    simp [SettingsManager.setBreakDuration, JsNum.ltb, hA, hB]
  · intro s st
    simp [SettingsManager.setFocusDuration, JsNum.ltb]

/-- Witness for C5 (amended) at concrete inputs: 0 focus minutes is
rejected unchanged, 30 focus minutes is accepted, 31 break minutes is
rejected. -/
theorem c5_witness :
    SettingsManager.setFocusDuration SettingsManager.defaults LocalStorage.empty
        (JsNum.num 0) =
      ((SettingsManager.defaults, LocalStorage.empty), false, []) ∧
    (SettingsManager.setFocusDuration SettingsManager.defaults LocalStorage.empty
        (JsNum.num 30)).2.1 = true ∧
    (SettingsManager.setBreakDuration SettingsManager.defaults LocalStorage.empty
        (JsNum.num 31)).2.1 = false := by
  refine ⟨?_, ?_, ?_⟩
  · exact c5_store_duration_setters.1 SettingsManager.defaults LocalStorage.empty 0
      (Or.inl (by norm_num))
  · rw [c5_store_duration_setters.2.1 SettingsManager.defaults LocalStorage.empty 30
      (by norm_num) (by norm_num)]
  · rw [c5_store_duration_setters.2.2.1 SettingsManager.defaults LocalStorage.empty 31
      (Or.inr (by norm_num))]

/-- A persisted store whose focus-duration string is not numeric and whose
theme string is outside dark/light. -/
def corruptStore : LocalStorage :=
  { focusDuration := some "abc"
    breakDuration := none
    soundEnabled := none
    theme := some "purple"
    focusStats := none }

/-- C4 counterexample: loading a store whose persisted theme string is
`"purple"` (outside dark/light) keeps `"purple"` instead of falling back
to the default `"dark"`, and its non-numeric focus-duration string
`"abc"` loads as NaN instead of the default 25 — the per-field fallback
the claim states for corrupt values does not happen. -/
theorem c4_counterexample :
    (SettingsManager.loadSettings SettingsManager.defaults corruptStore).theme
      = "purple" ∧
    (SettingsManager.loadSettings SettingsManager.defaults corruptStore).theme
      ≠ "dark" ∧
    (SettingsManager.loadSettings SettingsManager.defaults corruptStore).focusDuration
      = JsNum.nan ∧
    (SettingsManager.loadSettings SettingsManager.defaults corruptStore).focusDuration
      ≠ JsNum.num 25 := by
  refine ⟨?_, ?_, ?_, ?_⟩ <;> decide

/-- C4 as amended: keys that are absent load as their defaults (in
particular a fresh store loads exactly focus=25, break=5, sound=true,
theme=dark, stats all zero with the reset date stamped today), and a
stats value on which `JSON.parse` throws resets the whole settings object
to the defaults; but a non-numeric duration string loads as NaN — not the
default — and a theme string outside dark/light is kept verbatim, since
the loader validates neither. -/
theorem c4_load_defaults_amended :
    (∀ today : String,
      (SettingsManager.init today LocalStorage.empty).1 =
        { focusDuration := JsNum.num 25, breakDuration := JsNum.num 5,
          soundEnabled := true, theme := "dark",
          stats := { sessionsToday := 0, totalFocusTime := 0,
                     lastResetDate := some today } }) ∧
    (∀ st : LocalStorage, st.focusDuration = none →
      (SettingsManager.loadSettings SettingsManager.defaults st).focusDuration
        = JsNum.num 25) ∧
    (∀ st : LocalStorage, st.breakDuration = none →
      (SettingsManager.loadSettings SettingsManager.defaults st).breakDuration
        = JsNum.num 5) ∧
    (∀ st : LocalStorage, st.soundEnabled = none →
      (SettingsManager.loadSettings SettingsManager.defaults st).soundEnabled = true) ∧
    (∀ st : LocalStorage, st.theme = none →
      (SettingsManager.loadSettings SettingsManager.defaults st).theme = "dark") ∧
    (∀ st : LocalStorage, st.focusStats = none →
      (SettingsManager.loadSettings SettingsManager.defaults st).stats =
        SettingsManager.defaults.stats) ∧
    (∀ st : LocalStorage, st.focusStats = some StatsJson.malformed →
      SettingsManager.loadSettings SettingsManager.defaults st =
        SettingsManager.defaults) ∧
    (∀ (st : LocalStorage) (v : String), st.focusDuration = some v →
      jsParseInt v = JsNum.nan → st.focusStats ≠ some StatsJson.malformed →
      (SettingsManager.loadSettings SettingsManager.defaults st).focusDuration
        = JsNum.nan) ∧
    (∀ (st : LocalStorage) (v : String), st.theme = some v →
      st.focusStats ≠ some StatsJson.malformed →
      (SettingsManager.loadSettings SettingsManager.defaults st).theme = v) := by
  refine ⟨?_, ?_, ?_, ?_, ?_, ?_, ?_, ?_, ?_⟩
  · intro today
    simp [SettingsManager.init, SettingsManager.loadSettings,
      SettingsManager.checkStatsReset, SettingsManager.saveSettings,
      SettingsManager.defaults, LocalStorage.empty]
  · intro st h
    rcases hstj : st.focusStats with _ | j
    · simp [SettingsManager.loadSettings, SettingsManager.defaults, h, hstj]
    · rcases j with s | _ <;>
        simp [SettingsManager.loadSettings, SettingsManager.defaults, h, hstj]
  · intro st h
    rcases hstj : st.focusStats with _ | j
    · simp [SettingsManager.loadSettings, SettingsManager.defaults, h, hstj]
    · rcases j with s | _ <;>
        simp [SettingsManager.loadSettings, SettingsManager.defaults, h, hstj]
  · intro st h
    rcases hstj : st.focusStats with _ | j
    · simp [SettingsManager.loadSettings, SettingsManager.defaults, h, hstj]
    · rcases j with s | _ <;>
        simp [SettingsManager.loadSettings, SettingsManager.defaults, h, hstj]
  · intro st h
    rcases hstj : st.focusStats with _ | j
    · simp [SettingsManager.loadSettings, SettingsManager.defaults, h, hstj]
    · rcases j with s | _ <;>
        simp [SettingsManager.loadSettings, SettingsManager.defaults, h, hstj]
  · intro st h
    simp [SettingsManager.loadSettings, SettingsManager.defaults, h]
  · intro st h
    simp [SettingsManager.loadSettings, h]
  · intro st v hv hnan hstj
    rcases hj : st.focusStats with _ | j
    · simp [SettingsManager.loadSettings, hv, hnan, hj]
    · rcases j with s | _
      · simp [SettingsManager.loadSettings, hv, hnan, hj]
      · exact absurd hj hstj
  · intro st v hv hstj
    rcases hj : st.focusStats with _ | j
    · simp [SettingsManager.loadSettings, hv, hj]
    · rcases j with s | _
      · simp [SettingsManager.loadSettings, hv, hj]
      · exact absurd hj hstj

/-- Witness for C4 (amended): the NaN clause and the theme-kept clause
applied to the concrete corrupt store. -/
theorem c4_witness :
    (SettingsManager.loadSettings SettingsManager.defaults corruptStore).focusDuration
      = JsNum.nan ∧
    (SettingsManager.loadSettings SettingsManager.defaults corruptStore).theme
      = "purple" := by
  constructor
  · exact c4_load_defaults_amended.2.2.2.2.2.2.2.1 corruptStore "abc" rfl
      (by decide) (by decide)
  · exact c4_load_defaults_amended.2.2.2.2.2.2.2.2 corruptStore "purple" rfl (by decide)

/-- C8: loading with a stored stats record whose `lastResetDate` differs
from today zeroes `sessionsToday` and `totalFocusTime`, stamps today, and
persists the result before first read; a second load on the same day both
leaves the stats unchanged and writes nothing.  The rollover happens only
on load: no setter changes the stats, and the stats mutators never touch
`lastResetDate`. -/
theorem c8_daily_rollover :
    (∀ (st : LocalStorage) (stored : Stats) (today : String),
      st.focusStats = some (StatsJson.ok stored) →
      stored.lastResetDate ≠ some today →
      (SettingsManager.init today st).1.stats =
        { sessionsToday := 0, totalFocusTime := 0, lastResetDate := some today } ∧
      (SettingsManager.init today st).2.focusStats =
        some (StatsJson.ok
          { sessionsToday := 0, totalFocusTime := 0, lastResetDate := some today }) ∧
      (SettingsManager.init today ((SettingsManager.init today st).2)).1.stats =
        (SettingsManager.init today st).1.stats ∧
      (SettingsManager.init today ((SettingsManager.init today st).2)).2 =
        (SettingsManager.init today st).2) ∧
    (∀ (s : Settings) (st : LocalStorage) (m : JsNum),
      ((SettingsManager.setFocusDuration s st m).1.1).stats = s.stats) ∧
    (∀ (s : Settings) (st : LocalStorage) (m : JsNum),
      ((SettingsManager.setBreakDuration s st m).1.1).stats = s.stats) ∧
    (∀ (s : Settings) (st : LocalStorage) (b : Bool),
      ((SettingsManager.setSoundEnabled s st b).1.1).stats = s.stats) ∧
    (∀ (s : Settings) (st : LocalStorage) (th : String),
      ((SettingsManager.setTheme s st th).1.1).stats = s.stats) ∧
    (∀ (s : Settings) (st : LocalStorage),
      ((SettingsManager.incrementSessions s st).1).stats.lastResetDate =
        s.stats.lastResetDate) ∧
    (∀ (s : Settings) (st : LocalStorage) (m : ℚ),
      ((SettingsManager.addFocusTime s st m).1).stats.lastResetDate =
        s.stats.lastResetDate) := by
  refine ⟨?_, ?_, ?_, ?_, ?_, ?_, ?_⟩
  · intro st stored today hst hd
    refine ⟨?_, ?_, ?_, ?_⟩ <;>
      simp [SettingsManager.init, SettingsManager.loadSettings,
        SettingsManager.checkStatsReset, SettingsManager.saveSettings, hst, hd]
  · intro s st m
    cases h : (JsNum.ltb m (JsNum.num 1) || JsNum.ltb (JsNum.num 120) m) <;>
      simp [SettingsManager.setFocusDuration, h]
  · intro s st m
    cases h : (JsNum.ltb m (JsNum.num 1) || JsNum.ltb (JsNum.num 30) m) <;>
      simp [SettingsManager.setBreakDuration, h]
  · intro s st b
    simp [SettingsManager.setSoundEnabled]
  · intro s st th
    by_cases h : th ≠ "dark" ∧ th ≠ "light" <;> simp [SettingsManager.setTheme, h]
  · intro s st
    simp [SettingsManager.incrementSessions]
  · intro s st m
    simp [SettingsManager.addFocusTime]

/-- A store persisted yesterday: its stats carry yesterday's date. -/
def yesterdayStore : LocalStorage :=
  { focusDuration := some "25"
    breakDuration := some "5"
    soundEnabled := some "true"
    theme := some "dark"
    focusStats := some (StatsJson.ok
      { sessionsToday := 3, totalFocusTime := 75, lastResetDate := some "Fri Oct 10 2025" }) }

/-- Witness for C8 at the concrete day-old store. -/
theorem c8_witness :
    (SettingsManager.init "Sat Oct 11 2025" yesterdayStore).1.stats =
      { sessionsToday := 0, totalFocusTime := 0,
        lastResetDate := some "Sat Oct 11 2025" } ∧
    (SettingsManager.init "Sat Oct 11 2025" yesterdayStore).2.focusStats =
      some (StatsJson.ok
        { sessionsToday := 0, totalFocusTime := 0,
          lastResetDate := some "Sat Oct 11 2025" }) ∧
    (SettingsManager.init "Sat Oct 11 2025"
        ((SettingsManager.init "Sat Oct 11 2025" yesterdayStore).2)).1.stats =
      (SettingsManager.init "Sat Oct 11 2025" yesterdayStore).1.stats ∧
    (SettingsManager.init "Sat Oct 11 2025"
        ((SettingsManager.init "Sat Oct 11 2025" yesterdayStore).2)).2 =
      (SettingsManager.init "Sat Oct 11 2025" yesterdayStore).2 :=
  c8_daily_rollover.1 yesterdayStore
    { sessionsToday := 3, totalFocusTime := 75, lastResetDate := some "Fri Oct 10 2025" }
    "Sat Oct 11 2025" rfl (by decide)

/-!
Reachability of timer states, and the interval-handle and counter
invariants over it.
-/

/-- Unrestricted call sequences on the timer: every public operation with
arbitrary arguments, starting from the freshly constructed timer; an
interval callback fires whenever a live handle exists. -/
inductive ReachableT : FocusTimer → Prop where
  | init : ReachableT FocusTimer.init
  | start {t : FocusTimer} : ReachableT t → ReachableT (t.start).1
  | pause {t : FocusTimer} : ReachableT t → ReachableT (t.pause).1
  | resume {t : FocusTimer} : ReachableT t → ReachableT (t.resume).1
  | reset {t : FocusTimer} (m : Option String) : ReachableT t → ReachableT (t.reset m).1
  | setMode {t : FocusTimer} (m : String) : ReachableT t → ReachableT (t.setMode m).1
  | setFocusDuration {t : FocusTimer} (q : ℚ) : ReachableT t →
      ReachableT (t.setFocusDuration q).1
  | setBreakDuration {t : FocusTimer} (q : ℚ) : ReachableT t →
      ReachableT (t.setBreakDuration q).1
  | tick {t : FocusTimer} : ReachableT t → t.active ≠ [] → ReachableT (t.tick).1

theorem resetTime_state (t : FocusTimer) : t.resetTime.state = t.state := by
  unfold FocusTimer.resetTime
  split <;> rfl

theorem resetTime_mode (t : FocusTimer) : t.resetTime.mode = t.mode := by
  unfold FocusTimer.resetTime
  split <;> rfl

theorem resetTime_intervalId (t : FocusTimer) : t.resetTime.intervalId = t.intervalId := by
  unfold FocusTimer.resetTime
  split <;> rfl

theorem resetTime_active (t : FocusTimer) : t.resetTime.active = t.active := by
  unfold FocusTimer.resetTime
  split <;> rfl

theorem resetTime_nextId (t : FocusTimer) : t.resetTime.nextId = t.nextId := by
  unfold FocusTimer.resetTime
  split <;> rfl

theorem resetTime_focusDuration (t : FocusTimer) :
    t.resetTime.focusDuration = t.focusDuration := by
  unfold FocusTimer.resetTime
  split <;> rfl

theorem resetTime_breakDuration (t : FocusTimer) :
    t.resetTime.breakDuration = t.breakDuration := by
  unfold FocusTimer.resetTime
  split <;> rfl

theorem resetTime_timeLeft (t : FocusTimer) :
    t.resetTime.timeLeft =
      (if t.mode = "focus" then t.focusDuration else t.breakDuration) := by
  unfold FocusTimer.resetTime
  split <;> simp_all

theorem resetTime_totalTime (t : FocusTimer) :
    t.resetTime.totalTime =
      (if t.mode = "focus" then t.focusDuration else t.breakDuration) := by
  unfold FocusTimer.resetTime
  split <;> simp_all

/-- Interval-handle discipline: a running timer owns exactly one live
handle, recorded in `intervalId`; a non-running timer owns none. -/
def HandleInv (t : FocusTimer) : Prop :=
  (t.state = RUNNING → ∃ i, t.intervalId = some i ∧ t.active = [i]) ∧
  (t.state ≠ RUNNING → t.intervalId = none ∧ t.active = [])

theorem handleInv_init : HandleInv FocusTimer.init := by
  constructor
  · intro h
    simp [FocusTimer.init, STOPPED, RUNNING] at h
  · intro _
    simp [FocusTimer.init]

theorem handleInv_tick {t : FocusTimer} (h : HandleInv t) : HandleInv (t.tick).1 := by
  by_cases hr : t.state = RUNNING
  · obtain ⟨i, hid, hact⟩ := h.1 hr
    by_cases hc : t.timeLeft - 1 ≤ 0
    · refine ⟨?_, ?_⟩
      · intro h'
        simp [FocusTimer.tick, FocusTimer.complete, FocusTimer.clearIntervalJs, hc,
          STOPPED, RUNNING] at h'
      · intro _
        simp [FocusTimer.tick, FocusTimer.complete, FocusTimer.clearIntervalJs, hc,
          hid, hact]
    · refine ⟨?_, ?_⟩
      · intro _
        exact ⟨i, by simp [FocusTimer.tick, hc, hid], by simp [FocusTimer.tick, hc, hact]⟩
      · intro h'
        simp [FocusTimer.tick, hc] at h'
        exact absurd hr h'
  · obtain ⟨hid, hact⟩ := h.2 hr
    by_cases hc : t.timeLeft - 1 ≤ 0
    · refine ⟨?_, ?_⟩
      · intro h'
        simp [FocusTimer.tick, FocusTimer.complete, FocusTimer.clearIntervalJs, hc,
          STOPPED, RUNNING] at h'
      · intro _
        simp [FocusTimer.tick, FocusTimer.complete, FocusTimer.clearIntervalJs, hc,
          hid, hact]
    · refine ⟨?_, ?_⟩
      · intro h'
        simp [FocusTimer.tick, hc] at h'
        exact absurd h' hr
      · intro _
        refine ⟨?_, ?_⟩
        · simp [FocusTimer.tick, hc, hid]
        · simp [FocusTimer.tick, hc, hact]

theorem handleInv_start {t : FocusTimer} (h : HandleInv t) : HandleInv (t.start).1 := by
  by_cases hr : t.state = RUNNING
  · simpa [FocusTimer.start, hr] using h
  · obtain ⟨hid, hact⟩ := h.2 hr
    have h2 : HandleInv
        { t with
          state := RUNNING
          nextId := t.nextId + 1
          active := t.active ++ [t.nextId]
          intervalId := some t.nextId } := by
      constructor
      · intro _
        exact ⟨t.nextId, rfl, by simp [hact]⟩
      · intro h'
        simp at h'
    have h3 := handleInv_tick h2
    have heq : (t.start).1 =
        (FocusTimer.tick
          { t with
            state := RUNNING
            nextId := t.nextId + 1
            active := t.active ++ [t.nextId]
            intervalId := some t.nextId }).1 := by
      simp [FocusTimer.start, FocusTimer.setIntervalJs, hr]
    rw [heq]
    exact h3

theorem handleInv_pause {t : FocusTimer} (h : HandleInv t) : HandleInv (t.pause).1 := by
  by_cases hr : t.state = RUNNING
  · obtain ⟨i, hid, hact⟩ := h.1 hr
    constructor
    · intro h'
      simp [FocusTimer.pause, FocusTimer.clearIntervalJs, hr, RUNNING, PAUSED] at h'
    · intro _
      simp [FocusTimer.pause, FocusTimer.clearIntervalJs, hr, hid, hact]
  · simpa [FocusTimer.pause, hr] using h

theorem handleInv_resume {t : FocusTimer} (h : HandleInv t) : HandleInv (t.resume).1 := by
  by_cases hp : t.state = PAUSED
  · have h2 := handleInv_start h
    simpa [FocusTimer.resume, hp] using h2
  · simpa [FocusTimer.resume, hp] using h

theorem handleInv_reset {t : FocusTimer} (m : Option String) (h : HandleInv t) :
    HandleInv (t.reset m).1 := by
  have hact : (t.clearIntervalJs t.intervalId).active = [] := by
    by_cases hr : t.state = RUNNING
    · obtain ⟨i, hid, ha⟩ := h.1 hr
      simp [FocusTimer.clearIntervalJs, hid, ha]
    · obtain ⟨hid, ha⟩ := h.2 hr
      simp [FocusTimer.clearIntervalJs, hid, ha]
  constructor
  · intro h'
    rcases m with _ | mm
    · simp [FocusTimer.reset, resetTime_state, STOPPED, RUNNING] at h'
    · by_cases he : mm = "" <;>
        simp [FocusTimer.reset, resetTime_state, he, STOPPED, RUNNING] at h'
  · intro _
    rcases m with _ | mm
    · refine ⟨?_, ?_⟩
      · simp [FocusTimer.reset, resetTime_intervalId]
      · simp [FocusTimer.reset, resetTime_active]
        simpa [FocusTimer.clearIntervalJs] using hact
    · by_cases he : mm = ""
      · refine ⟨?_, ?_⟩
        · simp [FocusTimer.reset, resetTime_intervalId, he]
        · simp [FocusTimer.reset, resetTime_active, he]
          simpa [FocusTimer.clearIntervalJs] using hact
      · refine ⟨?_, ?_⟩
        · simp [FocusTimer.reset, resetTime_intervalId, he]
        · simp [FocusTimer.reset, resetTime_active, he]
          simpa [FocusTimer.clearIntervalJs] using hact

theorem handleInv_setMode {t : FocusTimer} (m : String) (h : HandleInv t) :
    HandleInv (t.setMode m).1 := by
  by_cases hv : m ≠ "focus" ∧ m ≠ "break"
  · simpa [FocusTimer.setMode, hv] using h
  · have hp := handleInv_pause h
    have hp1 : ((if t.state = RUNNING then (t.pause).1 else t)).state ≠ RUNNING := by
      by_cases hr : t.state = RUNNING
      · simp only [hr, if_true]
        simp [FocusTimer.pause, FocusTimer.clearIntervalJs, hr, RUNNING, PAUSED]
      · simpa [hr] using hr
    have hinv : HandleInv (if t.state = RUNNING then (t.pause).1 else t) := by
      by_cases hr : t.state = RUNNING
      · simpa [hr] using hp
      · simpa [hr] using h
    obtain ⟨hid, ha⟩ := hinv.2 hp1
    constructor
    · intro h'
      simp only [FocusTimer.setMode, hv, if_false] at h'
      rw [resetTime_state] at h'
      exact absurd h' (by simpa using hp1)
    · intro _
      refine ⟨?_, ?_⟩
      · simp only [FocusTimer.setMode, hv, if_false]
        rw [resetTime_intervalId]
        simpa using hid
      · simp only [FocusTimer.setMode, hv, if_false]
        rw [resetTime_active]
        simpa using ha

theorem handleInv_setFocusDuration {t : FocusTimer} (q : ℚ) (h : HandleInv t) :
    HandleInv (t.setFocusDuration q).1 := by
  by_cases hc : t.mode = "focus" ∧ t.state = STOPPED
  · have h2 : t.state ≠ RUNNING := by
      rw [hc.2]
      simp [STOPPED, RUNNING]
    obtain ⟨hid, ha⟩ := h.2 h2
    constructor
    · intro h'
      simp [FocusTimer.setFocusDuration, hc, hc.2, STOPPED, RUNNING] at h'
    · intro _
      simp [FocusTimer.setFocusDuration, hc, hid, ha]
  · constructor
    · intro h'
      simp [FocusTimer.setFocusDuration, hc] at h'
      obtain ⟨i, hi, ha⟩ := h.1 h'
      refine ⟨i, ?_, ?_⟩ <;> simp [FocusTimer.setFocusDuration, hc, hi, ha]
    · intro h'
      simp [FocusTimer.setFocusDuration, hc] at h'
      obtain ⟨hid, ha⟩ := h.2 h'
      simp [FocusTimer.setFocusDuration, hc, hid, ha]

theorem handleInv_setBreakDuration {t : FocusTimer} (q : ℚ) (h : HandleInv t) :
    HandleInv (t.setBreakDuration q).1 := by
  by_cases hc : t.mode = "break" ∧ t.state = STOPPED
  · have h2 : t.state ≠ RUNNING := by
      rw [hc.2]
      simp [STOPPED, RUNNING]
    obtain ⟨hid, ha⟩ := h.2 h2
    constructor
    · intro h'
      simp [FocusTimer.setBreakDuration, hc, hc.2, STOPPED, RUNNING] at h'
    · intro _
      simp [FocusTimer.setBreakDuration, hc, hid, ha]
  · constructor
    · intro h'
      simp [FocusTimer.setBreakDuration, hc] at h'
      obtain ⟨i, hi, ha⟩ := h.1 h'
      refine ⟨i, ?_, ?_⟩ <;> simp [FocusTimer.setBreakDuration, hc, hi, ha]
    · intro h'
      simp [FocusTimer.setBreakDuration, hc] at h'
      obtain ⟨hid, ha⟩ := h.2 h'
      simp [FocusTimer.setBreakDuration, hc, hid, ha]

theorem handleInv_reachable {t : FocusTimer} (h : ReachableT t) : HandleInv t := by
  induction h with
  | init => exact handleInv_init
  | start _ ih => exact handleInv_start ih
  | pause _ ih => exact handleInv_pause ih
  | resume _ ih => exact handleInv_resume ih
  | reset m _ ih => exact handleInv_reset m ih
  | setMode m _ ih => exact handleInv_setMode m ih
  | setFocusDuration q _ ih => exact handleInv_setFocusDuration q ih
  | setBreakDuration q _ ih => exact handleInv_setBreakDuration q ih
  | tick _ _ ih => exact handleInv_tick ih

/-- C9: in every reachable timer state at most one interval handle is
live, the stored handle is non-null exactly when the status is `running`,
a running state owns exactly its one live handle, and every non-running
state has a null handle and no live interval. -/
theorem c9_single_handle (t : FocusTimer) (h : ReachableT t) :
    t.active.length ≤ 1 ∧
    ((t.intervalId ≠ none) ↔ t.state = RUNNING) ∧
    (t.state = RUNNING → ∃ i, t.intervalId = some i ∧ t.active = [i]) ∧
    (t.state ≠ RUNNING → t.intervalId = none ∧ t.active = []) := by
  have hi := handleInv_reachable h
  refine ⟨?_, ?_, hi.1, hi.2⟩
  · by_cases hr : t.state = RUNNING
    · obtain ⟨i, _, ha⟩ := hi.1 hr
      simp [ha]
    · obtain ⟨_, ha⟩ := hi.2 hr
      simp [ha]
  · constructor
    · intro hne
      by_cases hr : t.state = RUNNING
      · exact hr
      · exact absurd (hi.2 hr).1 hne
    · intro hr
      obtain ⟨i, hid, _⟩ := hi.1 hr
      simp [hid]

/-- Witness for C9 at the concrete reachable state reached by `start()`
from the initial timer. -/
theorem c9_witness :
    (FocusTimer.init.start).1.active.length ≤ 1 ∧
    (((FocusTimer.init.start).1.intervalId ≠ none) ↔
      (FocusTimer.init.start).1.state = RUNNING) ∧
    ((FocusTimer.init.start).1.state = RUNNING →
      ∃ i, (FocusTimer.init.start).1.intervalId = some i ∧
        (FocusTimer.init.start).1.active = [i]) ∧
    ((FocusTimer.init.start).1.state ≠ RUNNING →
      (FocusTimer.init.start).1.intervalId = none ∧
      (FocusTimer.init.start).1.active = []) :=
  c9_single_handle (FocusTimer.init.start).1 (ReachableT.start ReachableT.init)

theorem tick_timeLeft (t : FocusTimer) : (t.tick).1.timeLeft = t.timeLeft - 1 := by
  by_cases hc : t.timeLeft - 1 ≤ 0 <;>
    simp [FocusTimer.tick, FocusTimer.complete, FocusTimer.clearIntervalJs, hc]

theorem tick_totalTime (t : FocusTimer) : (t.tick).1.totalTime = t.totalTime := by
  by_cases hc : t.timeLeft - 1 ≤ 0 <;>
    simp [FocusTimer.tick, FocusTimer.complete, FocusTimer.clearIntervalJs, hc]

theorem tick_focusDuration (t : FocusTimer) :
    (t.tick).1.focusDuration = t.focusDuration := by
  by_cases hc : t.timeLeft - 1 ≤ 0 <;>
    simp [FocusTimer.tick, FocusTimer.complete, FocusTimer.clearIntervalJs, hc]

theorem tick_breakDuration (t : FocusTimer) :
    (t.tick).1.breakDuration = t.breakDuration := by
  by_cases hc : t.timeLeft - 1 ≤ 0 <;>
    simp [FocusTimer.tick, FocusTimer.complete, FocusTimer.clearIntervalJs, hc]

theorem tick_state (t : FocusTimer) :
    (t.tick).1.state = (if t.timeLeft - 1 ≤ 0 then STOPPED else t.state) := by
  by_cases hc : t.timeLeft - 1 ≤ 0 <;>
    simp [FocusTimer.tick, FocusTimer.complete, FocusTimer.clearIntervalJs, hc]

/-- A rational that is a whole number (JavaScript arithmetic on whole
numbers stays whole). -/
def IsIntQ (q : ℚ) : Prop := ∃ n : ℤ, q = (n : ℚ)

theorem IsIntQ.sub_one {q : ℚ} (h : IsIntQ q) : IsIntQ (q - 1) := by
  obtain ⟨n, rfl⟩ := h
  exact ⟨n - 1, by push_cast; ring⟩

theorem IsIntQ.one_le {q : ℚ} (h : IsIntQ q) (hpos : 0 < q) : 1 ≤ q := by
  obtain ⟨n, rfl⟩ := h
  have h1 : (0 : ℤ) < n := by exact_mod_cast hpos
  have h2 : (1 : ℤ) ≤ n := h1
  exact_mod_cast h2

/-- Counter discipline of the session: whole-valued quantities, positive
configured durations, `0 ≤ timeLeft ≤ totalTime`, positive `totalTime`,
and a non-stopped session has at least one second left. -/
structure NumInv (t : FocusTimer) : Prop where
  timeLeft_int : IsIntQ t.timeLeft
  totalTime_int : IsIntQ t.totalTime
  focus_int : IsIntQ t.focusDuration
  brk_int : IsIntQ t.breakDuration
  focus_pos : 0 < t.focusDuration
  brk_pos : 0 < t.breakDuration
  timeLeft_nonneg : 0 ≤ t.timeLeft
  timeLeft_le : t.timeLeft ≤ t.totalTime
  totalTime_pos : 0 < t.totalTime
  active_ge_one : t.state ≠ STOPPED → 1 ≤ t.timeLeft

theorem numInv_init : NumInv FocusTimer.init := by
  refine ⟨⟨1500, ?_⟩, ⟨1500, ?_⟩, ⟨1500, ?_⟩, ⟨300, ?_⟩, ?_, ?_, ?_, ?_, ?_, ?_⟩ <;>
    norm_num [FocusTimer.init, DEFAULT_FOCUS_TIME, DEFAULT_BREAK_TIME, STOPPED]

theorem numInv_tick {t : FocusTimer} (h : NumInv t) (h1 : 1 ≤ t.timeLeft) :
    NumInv (t.tick).1 := by
  refine ⟨?_, ?_, ?_, ?_, ?_, ?_, ?_, ?_, ?_, ?_⟩
  · rw [tick_timeLeft]
    exact h.timeLeft_int.sub_one
  · rw [tick_totalTime]
    exact h.totalTime_int
  · rw [tick_focusDuration]
    exact h.focus_int
  · rw [tick_breakDuration]
    exact h.brk_int
  · rw [tick_focusDuration]
    exact h.focus_pos
  · rw [tick_breakDuration]
    exact h.brk_pos
  · rw [tick_timeLeft]
    linarith
  · rw [tick_timeLeft, tick_totalTime]
    have := h.timeLeft_le
    linarith
  · rw [tick_totalTime]
    exact h.totalTime_pos
  · intro hs'
    rw [tick_timeLeft]
    rw [tick_state] at hs'
    by_cases hc : t.timeLeft - 1 ≤ 0
    · rw [if_pos hc] at hs'
      exact absurd rfl hs'
    · push_neg at hc
      exact (h.timeLeft_int.sub_one).one_le hc

theorem numInv_start {t : FocusTimer} (h : NumInv t) (hne : t.timeLeft ≠ 0) :
    NumInv (t.start).1 := by
  by_cases hr : t.state = RUNNING
  · simpa [FocusTimer.start, hr] using h
  · have h1 : 1 ≤ t.timeLeft :=
      h.timeLeft_int.one_le (lt_of_le_of_ne h.timeLeft_nonneg (Ne.symm hne))
    have h2 : NumInv
        { t with
          state := RUNNING
          nextId := t.nextId + 1
          active := t.active ++ [t.nextId]
          intervalId := some t.nextId } :=
      ⟨h.timeLeft_int, h.totalTime_int, h.focus_int, h.brk_int, h.focus_pos,
        h.brk_pos, h.timeLeft_nonneg, h.timeLeft_le, h.totalTime_pos, fun _ => h1⟩
    have h3 := numInv_tick h2 h1
    have heq : (t.start).1 =
        (FocusTimer.tick
          { t with
            state := RUNNING
            nextId := t.nextId + 1
            active := t.active ++ [t.nextId]
            intervalId := some t.nextId }).1 := by
      simp [FocusTimer.start, FocusTimer.setIntervalJs, hr]
    rw [heq]
    exact h3

theorem numInv_pause {t : FocusTimer} (h : NumInv t) : NumInv (t.pause).1 := by
  by_cases hr : t.state = RUNNING
  · have h1 : 1 ≤ t.timeLeft := h.active_ge_one (by rw [hr]; decide)
    have heq : (t.pause).1 =
        { (FocusTimer.clearIntervalJs { t with state := PAUSED }
            t.intervalId) with intervalId := none } := by
      simp [FocusTimer.pause, hr, FocusTimer.clearIntervalJs]
    rw [heq]
    exact ⟨h.timeLeft_int, h.totalTime_int, h.focus_int, h.brk_int, h.focus_pos,
      h.brk_pos, h.timeLeft_nonneg, h.timeLeft_le, h.totalTime_pos, fun _ => h1⟩
  · simpa [FocusTimer.pause, hr] using h

theorem numInv_resume {t : FocusTimer} (h : NumInv t) : NumInv (t.resume).1 := by
  by_cases hp : t.state = PAUSED
  · have h1 : 1 ≤ t.timeLeft := h.active_ge_one (by rw [hp]; decide)
    have hne : t.timeLeft ≠ 0 := by linarith
    have h2 := numInv_start h hne
    simpa [FocusTimer.resume, hp] using h2
  · simpa [FocusTimer.resume, hp] using h

theorem numInv_resetTime {t : FocusTimer} (hfi : IsIntQ t.focusDuration)
    (hbi : IsIntQ t.breakDuration) (hf : 0 < t.focusDuration)
    (hb : 0 < t.breakDuration) : NumInv t.resetTime := by
  have e1 := resetTime_timeLeft t
  have e2 := resetTime_totalTime t
  have e3 := resetTime_focusDuration t
  have e4 := resetTime_breakDuration t
  by_cases hm : t.mode = "focus"
  · rw [if_pos hm] at e1 e2
    exact ⟨by rw [e1]; exact hfi, by rw [e2]; exact hfi, by rw [e3]; exact hfi,
      by rw [e4]; exact hbi, by rw [e3]; exact hf, by rw [e4]; exact hb,
      by rw [e1]; exact le_of_lt hf, by rw [e1, e2],
      by rw [e2]; exact hf, fun _ => by rw [e1]; exact hfi.one_le hf⟩
  · rw [if_neg hm] at e1 e2
    exact ⟨by rw [e1]; exact hbi, by rw [e2]; exact hbi, by rw [e3]; exact hfi,
      by rw [e4]; exact hbi, by rw [e3]; exact hf, by rw [e4]; exact hb,
      by rw [e1]; exact le_of_lt hb, by rw [e1, e2],
      by rw [e2]; exact hb, fun _ => by rw [e1]; exact hbi.one_le hb⟩

theorem numInv_reset {t : FocusTimer} (m : Option String) (h : NumInv t) :
    NumInv (t.reset m).1 := by
  rcases m with _ | mm
  · have heq : (t.reset none).1 =
        FocusTimer.resetTime
          { ({ (t.clearIntervalJs t.intervalId) with intervalId := none }) with
            state := STOPPED } := by
      simp [FocusTimer.reset]
    rw [heq]
    exact numInv_resetTime h.focus_int h.brk_int h.focus_pos h.brk_pos
  · by_cases he : mm = ""
    · have heq : (t.reset (some mm)).1 =
          FocusTimer.resetTime
            { ({ (t.clearIntervalJs t.intervalId) with intervalId := none }) with
              state := STOPPED } := by
        simp [FocusTimer.reset, he]
      rw [heq]
      exact numInv_resetTime h.focus_int h.brk_int h.focus_pos h.brk_pos
    · have heq : (t.reset (some mm)).1 =
          FocusTimer.resetTime
            { ({ (t.clearIntervalJs t.intervalId) with intervalId := none }) with
              state := STOPPED, mode := mm } := by
        simp [FocusTimer.reset, he]
      rw [heq]
      exact numInv_resetTime h.focus_int h.brk_int h.focus_pos h.brk_pos

theorem numInv_setMode {t : FocusTimer} (m : String) (h : NumInv t) :
    NumInv (t.setMode m).1 := by
  by_cases hv : m ≠ "focus" ∧ m ≠ "break"
  · simpa [FocusTimer.setMode, hv] using h
  · have h1 : NumInv (if t.state = RUNNING then (t.pause).1 else t) := by
      by_cases hr : t.state = RUNNING
      · simpa [hr] using numInv_pause h
      · simpa [hr] using h
    have heq : (t.setMode m).1 =
        FocusTimer.resetTime
          { (if t.state = RUNNING then (t.pause).1 else t) with mode := m } := by
      simp [FocusTimer.setMode, hv]
    rw [heq]
    exact numInv_resetTime h1.focus_int h1.brk_int h1.focus_pos h1.brk_pos

theorem numInv_setFocusDuration {t : FocusTimer} (n : ℤ) (h : NumInv t)
    (h1 : 1 ≤ n) : NumInv (t.setFocusDuration (n : ℚ)).1 := by
  have hint : IsIntQ ((n : ℚ) * 60) := ⟨n * 60, by push_cast; ring⟩
  have hn : (1 : ℚ) ≤ (n : ℚ) := by exact_mod_cast h1
  have hpos : 0 < (n : ℚ) * 60 := by nlinarith
  by_cases hc : t.mode = "focus" ∧ t.state = STOPPED
  · have heq : (t.setFocusDuration (n : ℚ)).1 =
        { t with
          focusDuration := (n : ℚ) * 60
          timeLeft := (n : ℚ) * 60
          totalTime := (n : ℚ) * 60 } := by
      simp [FocusTimer.setFocusDuration, hc]
    rw [heq]
    exact ⟨hint, hint, hint, h.brk_int, hpos, h.brk_pos, le_of_lt hpos, le_refl _,
      hpos, fun _ => hint.one_le hpos⟩
  · have heq : (t.setFocusDuration (n : ℚ)).1 =
        { t with focusDuration := (n : ℚ) * 60 } := by
      simp [FocusTimer.setFocusDuration, hc]
    rw [heq]
    exact ⟨h.timeLeft_int, h.totalTime_int, hint, h.brk_int, hpos, h.brk_pos,
      h.timeLeft_nonneg, h.timeLeft_le, h.totalTime_pos, h.active_ge_one⟩

theorem numInv_setBreakDuration {t : FocusTimer} (n : ℤ) (h : NumInv t)
    (h1 : 1 ≤ n) : NumInv (t.setBreakDuration (n : ℚ)).1 := by
  have hint : IsIntQ ((n : ℚ) * 60) := ⟨n * 60, by push_cast; ring⟩
  have hn : (1 : ℚ) ≤ (n : ℚ) := by exact_mod_cast h1
  have hpos : 0 < (n : ℚ) * 60 := by nlinarith
  by_cases hc : t.mode = "break" ∧ t.state = STOPPED
  · have heq : (t.setBreakDuration (n : ℚ)).1 =
        { t with
          breakDuration := (n : ℚ) * 60
          timeLeft := (n : ℚ) * 60
          totalTime := (n : ℚ) * 60 } := by
      simp [FocusTimer.setBreakDuration, hc]
    rw [heq]
    exact ⟨hint, hint, h.focus_int, hint, h.focus_pos, hpos, le_of_lt hpos, le_refl _,
      hpos, fun _ => hint.one_le hpos⟩
  · have heq : (t.setBreakDuration (n : ℚ)).1 =
        { t with breakDuration := (n : ℚ) * 60 } := by
      simp [FocusTimer.setBreakDuration, hc]
    rw [heq]
    exact ⟨h.timeLeft_int, h.totalTime_int, h.focus_int, hint, h.focus_pos, hpos,
      h.timeLeft_nonneg, h.timeLeft_le, h.totalTime_pos, h.active_ge_one⟩

/-- Call sequences obeying the documented calling conventions: the
duration setters receive whole minutes within the preference store's
validated ranges, `start()` is not invoked on a session whose remaining
time has already run to 0 (a completed session is reset first), and
interval ticks fire only while `running`. -/
inductive ReachableG : FocusTimer → Prop where
  | init : ReachableG FocusTimer.init
  | start {t : FocusTimer} : ReachableG t → t.timeLeft ≠ 0 → ReachableG (t.start).1
  | pause {t : FocusTimer} : ReachableG t → ReachableG (t.pause).1
  | resume {t : FocusTimer} : ReachableG t → ReachableG (t.resume).1
  | reset {t : FocusTimer} (m : Option String) : ReachableG t → ReachableG (t.reset m).1
  | setMode {t : FocusTimer} (m : String) : ReachableG t → ReachableG (t.setMode m).1
  | setFocusDuration {t : FocusTimer} (n : ℤ) : ReachableG t → 1 ≤ n → n ≤ 120 →
      ReachableG (t.setFocusDuration (n : ℚ)).1
  | setBreakDuration {t : FocusTimer} (n : ℤ) : ReachableG t → 1 ≤ n → n ≤ 30 →
      ReachableG (t.setBreakDuration (n : ℚ)).1
  | tick {t : FocusTimer} : ReachableG t → t.state = RUNNING → ReachableG (t.tick).1

theorem numInv_reachableG {t : FocusTimer} (h : ReachableG t) : NumInv t := by
  induction h with
  | init => exact numInv_init
  | start _ hne ih => exact numInv_start ih hne
  | pause _ ih => exact numInv_pause ih
  | resume _ ih => exact numInv_resume ih
  | reset m _ ih => exact numInv_reset m ih
  | setMode m _ ih => exact numInv_setMode m ih
  | setFocusDuration n _ h1 _ ih => exact numInv_setFocusDuration n ih h1
  | setBreakDuration n _ h1 _ ih => exact numInv_setBreakDuration n ih h1
  | tick _ hr ih => exact numInv_tick ih (ih.active_ge_one (by rw [hr]; decide))

/-- C3 counterexample: the claimed invariant fails on the code as stated:
the state reached from the initial timer by the single public call
`setFocusDuration(0)` — the timer setter validates nothing — has
`totalTime = 0`, violating `totalSeconds > 0`. -/
theorem c3_counterexample :
    ReachableT ((FocusTimer.init.setFocusDuration 0).1) ∧
    ((FocusTimer.init.setFocusDuration 0).1).totalTime = 0 ∧
    ¬ (0 < ((FocusTimer.init.setFocusDuration 0).1).totalTime) := by
  refine ⟨ReachableT.setFocusDuration 0 ReachableT.init, ?_, ?_⟩
  · norm_num [FocusTimer.init, FocusTimer.setFocusDuration, STOPPED] <;> simp
  · norm_num [FocusTimer.init, FocusTimer.setFocusDuration, STOPPED] <;> simp

/-- C3 as amended: the invariant `0 ≤ remainingSeconds ≤ totalSeconds`
and `totalSeconds > 0` holds in every state reachable from the initial
timer through the public operations, provided the duration setters are
called with whole minutes in the store's validated ranges ([1,120] for
focus, [1,30] for break) and `start()` is never invoked on a session
whose remaining time is already 0 (such as a completed session that was
not reset). -/
theorem c3_invariant_amended (t : FocusTimer) (h : ReachableG t) :
    0 ≤ t.timeLeft ∧ t.timeLeft ≤ t.totalTime ∧ 0 < t.totalTime := by
  have hi := numInv_reachableG h
  exact ⟨hi.timeLeft_nonneg, hi.timeLeft_le, hi.totalTime_pos⟩

/-- Witness for C3 (amended) at the concrete state reached by `start()`
from the initial timer. -/
theorem c3_witness :
    0 ≤ (FocusTimer.init.start).1.timeLeft ∧
    (FocusTimer.init.start).1.timeLeft ≤ (FocusTimer.init.start).1.totalTime ∧
    0 < (FocusTimer.init.start).1.totalTime :=
  c3_invariant_amended (FocusTimer.init.start).1
    (ReachableG.start ReachableG.init
      (by norm_num [FocusTimer.init, DEFAULT_FOCUS_TIME]))
